import Mathlib

/-!
Verification development for the Al-Risalah article crawler
(`master-code/risalah-scraper.py`).

The crawler fetches numbered posts, extracts structured fields with
BeautifulSoup, and persists each non-empty article to a bucketed text
file and a SQLite row.  This file gives a shallow embedding of that
script: HTML responses are modelled as an abstract structured view of
the parsed document (the fields the script reads), the file system,
the SQLite `articles` table and the console output are an explicit
`Store` threaded through the functions, machine floats for backoff
durations and timestamps become `ℚ`, and Python exceptions become an
explicit `Except` result.  The tenacity retry decorator
(`stop_after_attempt(3)`, `wait_exponential(multiplier=1, min=4, max=10)`,
no `retry=` argument so every exception is retried) is embedded as a
fuel-indexed loop.
-/

/-- Configuration constant `ARTICLES_PATH = "articles"`. -/
def ARTICLES_PATH : String := "articles"

/-- Configuration constant `NUM_WORKERS = 5`. -/
def NUM_WORKERS : Nat := 5

/-- Configuration constant `RATE_LIMIT = 5`. -/
def RATE_LIMIT : ℚ := 5

/-- Python exceptions that can escape the body of `scrape_article`:
`requests.exceptions.RequestException` (connection errors, timeouts and
`raise_for_status` errors — re-raised by the `except` clause at lines
128–133), `IndexError` (from `find_all("li")[-1]` on an empty
breadcrumb, line 87), `sqlite3.IntegrityError` (duplicate primary key at
the `INSERT`, line 121), and the tenacity `RetryError` wrapping the last
exception once `stop_after_attempt(3)` is reached. -/
inductive PyErr where
  | requestException
  | indexError
  | integrityError
  | retryError (last : PyErr)
deriving DecidableEq, Repr

/-- The distinct `return` points of `scrape_article`.  The Python
function returns `None` at each of them; the constructor records which
exit was taken (model instrumentation only — it adds no behaviour). -/
inductive ScrapeOutcome where
  | notFoundReturn    -- line 67: status 404
  | noHeadlineReturn  -- line 76: headline tag absent
  | noContent         -- fall-through: `article_content.strip()` empty
  | saved             -- file written and row inserted
deriving DecidableEq, Repr

/-- Structured view of a parsed post page: exactly the fields the
script reads from the BeautifulSoup document.
* `headline`: text of `h1.page-post-title` if the tag is present;
* `timeText`: text of the `time` tag if present;
* `breadcrumb`: if the `ol.breadcrumb` tag is present, the list of its
  `li` items, each recorded as the text of its `a` child when that
  child exists;
* `sourceText`: text of the `h4.page-post-source` tag if present;
* `contentTexts`: for each `div.p-4.bg-white` container in document
  order, its `get_text` result after the `div.p-3` share blocks inside
  it have been decomposed. -/
structure Document where
  headline : Option String
  timeText : Option String
  breadcrumb : Option (List (Option String))
  sourceText : Option String
  contentTexts : List String
deriving DecidableEq, Repr

/-- Outcome of one `session.get` call as the script observes it:
a 404 status, a 200 page, a 4xx/5xx status that makes
`raise_for_status` raise, or a network-level exception from the call
itself. -/
inductive HttpResponse where
  | notFound
  | ok (doc : Document)
  | errorStatus
  | netError
deriving DecidableEq, Repr

/-- One row of the `articles` table, in the column order of the
`INSERT` at lines 121–124: id, headline, published, category, source,
content.  `id` is the `INTEGER PRIMARY KEY` of the schema created by
`init_database`. -/
abbrev DbRow : Type := Nat × String × String × String × String × String

/-- The world the script mutates: the files written (path and
contents, in write order), the `articles` table, and the lines printed
to the console. -/
structure Store where
  files : List (String × String)
  table : List DbRow
  log : List String
deriving DecidableEq, Repr

/-- Console line printed at line 66 for a 404 response. -/
def notFoundLine (post_id : Nat) : String :=
  "No content found for post ID: " ++ toString post_id

/-- Console line printed at line 75 when the headline tag is absent. -/
def noHeadlineLine (post_id : Nat) : String :=
  "No headline or content found for post ID: " ++ toString post_id

/-- Console line printed at line 116 after the file write. -/
def savedLine (post_id : Nat) : String :=
  "Saved article from post ID: " ++ toString post_id

/-- Console line printed at line 129 by the `except` clause (the
exception text and the optional response dumps are elided). -/
def errorLine (post_id : Nat) : String :=
  "Error in scraping article " ++ toString post_id

/-- Category extraction, lines 84–89.  `breadcrumb.find_all("li")[-1]`
raises `IndexError` when the breadcrumb has no `li` items; otherwise
the category is the text of the last item `a` child when present,
else the "No Category" default. -/
def categoryResult (breadcrumb : Option (List (Option String))) : Except PyErr String :=
  match breadcrumb with
  | none => .ok "No Category"
  | some lis =>
    match lis.getLast? with
    | none => .error .indexError
    | some link => .ok (link.getD "No Category")

/-- Bucket directory name, line 105:
the bucket low bound post_id // 10000 * 10000 and the high bound (post_id // 10000 + 1) * 10000 - 1 joined by a dash. -/
def bucketName (post_id : Nat) : String :=
  toString (post_id / 10000 * 10000) ++ "-" ++ toString ((post_id / 10000 + 1) * 10000 - 1)

/-- Sanitised headline used in the file name, line 108:
`headline[:50].replace("/", "-")` (a single-character replace, hence a
character map over the first 50 characters). -/
def headline50 (headline : String) : String :=
  ⟨(headline.data.take 50).map (fun c => if c = '/' then '-' else c)⟩

/-- File name, line 108: post_id, an underscore, the sanitised headline, and the ".txt" suffix. -/
def txtName (post_id : Nat) (headline : String) : String :=
  toString post_id ++ "_" ++ headline50 headline ++ ".txt"

/-- Full path of the article file, lines 105–109 (`os.path.join`). -/
def txtPath (post_id : Nat) (headline : String) : String :=
  ARTICLES_PATH ++ "/" ++ bucketName post_id ++ "/" ++ txtName post_id headline

/-- The five successive `f.write` calls at lines 111–115. -/
def fileWrites (headline time_text category source_text content : String) : List String :=
  ["Title: " ++ headline ++ "\n",
   "Published: " ++ time_text ++ "\n",
   "Category: " ++ category ++ "\n",
   "Source: " ++ source_text ++ "\n\n",
   content]

/-- Contents of the article file: the writes applied in order to an
initially empty file. -/
def fileText (headline time_text category source_text content : String) : String :=
  (fileWrites headline time_text category source_text content).foldl (· ++ ·) ""

/-- Python str.strip() with no argument: remove whitespace from both
ends of the string. -/
def pyStrip (s : String) : String :=
  ⟨((s.data.dropWhile Char.isWhitespace).reverse.dropWhile Char.isWhitespace).reverse⟩

/-- SQLite `INSERT` into `articles`, lines 121–124: a plain `INSERT`
with no conflict clause, so a row whose `id` equals an existing
primary key raises `sqlite3.IntegrityError` and leaves the table
unchanged; otherwise the row is appended. -/
def sqliteInsert (table : List DbRow) (row : DbRow) : Except PyErr (List DbRow) :=
  if table.any (fun r => r.1 = row.1) then .error .integrityError
  else .ok (table ++ [row])

/-- One attempt of the body of `scrape_article` (lines 60–133), as a
function of the post id, the HTTP response this attempt observes, and
the current store.  Returns the mutated store and either the taken
return point or the escaping exception.  `RequestException`s raised in
the `try` block are caught at line 128, logged and re-raised;
`IndexError` and `IntegrityError` are not caught (the `except` clause
only matches `RequestException`) and escape directly. -/
def scrapeOnce (post_id : Nat) (resp : HttpResponse) (st : Store) :
    Store × Except PyErr ScrapeOutcome :=
  match resp with
  | .netError =>
    ({ st with log := st.log ++ [errorLine post_id] }, .error .requestException)
  | .errorStatus =>
    ({ st with log := st.log ++ [errorLine post_id] }, .error .requestException)
  | .notFound =>
    ({ st with log := st.log ++ [notFoundLine post_id] }, .ok .notFoundReturn)
  | .ok doc =>
    match doc.headline with
    | none =>
      ({ st with log := st.log ++ [noHeadlineLine post_id] }, .ok .noHeadlineReturn)
    | some headline =>
      let time_text := doc.timeText.getD "No Date"
      match categoryResult doc.breadcrumb with
      | .error e => (st, .error e)
      | .ok category =>
        let source_text := doc.sourceText.getD "No Source"
        let article_content := String.intercalate "\n" doc.contentTexts
        if pyStrip article_content = "" then
          (st, .ok .noContent)
        else
          let contents := fileText headline time_text category source_text article_content
          let st1 : Store :=
            { st with files := st.files ++ [(txtPath post_id headline, contents)],
                      log := st.log ++ [savedLine post_id] }
          match sqliteInsert st1.table (post_id, headline, time_text, category,
              source_text, article_content) with
          | .error e => (st1, .error e)
          | .ok table1 => ({ st1 with table := table1 }, .ok .saved)

/-- Backoff of the tenacity `wait_exponential(multiplier=1, min=4, max=10)`
after the failed attempt numbered `n` (1-based):
`max(max(0, min), min(multiplier * 2 ** (n - 1), max))`. -/
def waitExp (multiplier lo hi : ℚ) (n : Nat) : ℚ :=
  max (max 0 lo) (min (multiplier * 2 ^ (n - 1)) hi)

/-- The backoff schedule of the `@retry` decorator at line 59. -/
def scrapeBackoff (n : Nat) : ℚ := waitExp 1 4 10 n

deriving instance DecidableEq for Except

/-- Result of a call through the tenacity decorator: the final store,
the returned value or escaping exception, the number of the last
attempt actually issued, and the backoff sleeps performed between
attempts. -/
structure RetryResult where
  store : Store
  result : Except PyErr ScrapeOutcome
  attempts : Nat
  waits : List ℚ
deriving DecidableEq, Repr

/-- the tenacity `stop_after_attempt(3)`: stop once the attempt that
just finished is numbered `>= 3`. -/
def stopAfter3 (n : Nat) : Bool := 3 ≤ n

/-- The retry loop of the `@retry(stop=stop_after_attempt(3), ...)`
decorator: run attempt `n`; return its value on success; on any
exception (no `retry=` argument, so every exception kind is retried)
either re-raise wrapped in `RetryError` when the stop condition holds,
or sleep the backoff and run attempt `n + 1`.  `fuel` is a structural
bound; from the entry point `fuel = 3, n = 1` it never reaches 0. -/
def retryGo (f : Nat → Store → Store × Except PyErr ScrapeOutcome) :
    Nat → Nat → Store → RetryResult
  | 0, n, st => ⟨st, .error (.retryError .requestException), n - 1, []⟩
  | fuel + 1, n, st =>
    match f n st with
    | (st1, .ok o) => ⟨st1, .ok o, n, []⟩
    | (st1, .error e) =>
      if stopAfter3 n then ⟨st1, .error (.retryError e), n, []⟩
      else
        let r := retryGo f fuel (n + 1) st1
        ⟨r.store, r.result, r.attempts, scrapeBackoff n :: r.waits⟩

/-- The decorated `scrape_article`: the body `scrapeOnce` run through
the tenacity retry loop, where `resp n` is the HTTP response the
`n`-th attempt observes. -/
def scrapeArticle (post_id : Nat) (resp : Nat → HttpResponse) (st : Store) : RetryResult :=
  retryGo (fun n s => scrapeOnce post_id (resp n) s) 3 1 st

/-- Terminal status of a work item, derived from the exit the worker
observed: the source records no statuses, so `Done` means the item
was saved, `Skipped` means a no-contentreturn path was taken, and
`Failed` means an exception escaped `scrape_article` for it. -/
inductive ItemStatus where
  | done
  | skippedNotFound
  | skippedNoContent
  | failed
deriving DecidableEq, Repr

/-- Status derived from a normal return of `scrape_article`. -/
def statusOfOutcome : ScrapeOutcome → ItemStatus
  | .saved => .done
  | .notFoundReturn => .skippedNotFound
  | .noHeadlineReturn => .skippedNoContent
  | .noContent => .skippedNoContent

/-- State of one worker thread: still in its loop, returned normally
after seeing the queue empty, or terminated by an exception that
escaped `scrape_article` (the `worker` function at lines 136–142 has
no `try`/`except`, so any exception ends the thread). -/
inductive WStatus where
  | running
  | exited
  | crashed
deriving DecidableEq, Repr

/-- State of the pool run: the remaining queue (`post_queue`), the
status of each of the `NUM_WORKERS` threads, the per-item terminal
results in processing order, and the shared store. -/
structure PoolState where
  queue : List Nat
  workers : List WStatus
  results : List (Nat × ItemStatus)
  store : Store
deriving DecidableEq, Repr

/-- One iteration of the `worker` loop (lines 136–142) by worker `i`,
taken as atomic: check `post_queue.empty()` and exit the loop if so;
otherwise `get` the next id, wait on the rate limiter (timed
behaviour modelled separately), call `scrape_article`, and sleep the
courtesy jitter.  An escaping exception terminates the thread with
the remaining queue untouched.  `resp id n` is the response the
`n`-th attempt for item `id` observes. -/
def poolStep (resp : Nat → Nat → HttpResponse) (ps : PoolState) (i : Nat) : PoolState :=
  match ps.workers.get? i with
  | some .running =>
    match ps.queue with
    | [] => { ps with workers := ps.workers.set i .exited }
    | post_id :: rest =>
      let r := scrapeArticle post_id (resp post_id) ps.store
      match r.result with
      | .ok o =>
        { queue := rest, workers := ps.workers,
          results := ps.results ++ [(post_id, statusOfOutcome o)], store := r.store }
      | .error _ =>
        { queue := rest, workers := ps.workers.set i .crashed,
          results := ps.results ++ [(post_id, .failed)], store := r.store }
  | _ => ps

/-- A pool execution: the interleaving of worker iterations is an
input schedule (list of worker indices); the run folds `poolStep`
over it.  Any real interleaving of atomic iterations corresponds to
one schedule. -/
def runPool (resp : Nat → Nat → HttpResponse) (ps : PoolState) (sched : List Nat) : PoolState :=
  sched.foldl (poolStep resp) ps

/-- The ids seeded by `scrape_all_articles` (lines 148–149):
`range(start_id, end_id + 1)` in ascending order. -/
def seedIds (start_id end_id : Nat) : List Nat :=
  List.range' start_id (end_id + 1 - start_id)

/-- Initial pool state built by `scrape_all_articles`: the seeded
queue, `NUM_WORKERS` running threads, and the store as left by
`init_database` (empty table, no files, nothing printed). -/
def initPool (start_id end_id : Nat) : PoolState :=
  ⟨seedIds start_id end_id, List.replicate NUM_WORKERS .running, [], ⟨[], [], []⟩⟩

/-- Aggregate outcome counts (succeeded, skipped-not-found,
skipped-no-content, failed) computed from a run's results.  Defined
for comparison with the spec: the source computes no such counts. -/
def outcomeCounts (rs : List (Nat × ItemStatus)) : Nat × Nat × Nat × Nat :=
  (rs.countP (fun r => r.2 = .done),
   rs.countP (fun r => r.2 = .skippedNotFound),
   rs.countP (fun r => r.2 = .skippedNoContent),
   rs.countP (fun r => r.2 = .failed))

/-- Return value of `scrape_all_articles` (lines 145–156): the
function body seeds the queue and awaits the workers but contains no
`return` statement, so the call returns `None` whatever happened. -/
def scrapeAllArticlesRet (start_id end_id : Nat) (resp : Nat → Nat → HttpResponse)
    (sched : List Nat) : Unit :=
  let _ := runPool resp (initPool start_id end_id) sched
  ()

/-- Shared `RateLimiter` state (lines 28–39): the configured rate and
the timestamp of the last permit (`self.timestamp`, initialised to
the construction time). -/
structure RateLimiter where
  rate : ℚ
  timestamp : ℚ
deriving DecidableEq, Repr

/-- One call of `RateLimiter.wait` (lines 34–39), whose whole body
runs under `self.lock`: read the clock (`t1`), sleep
`1/rate - elapsed` if `elapsed < 1/rate`, then read the clock again
and store it as the new timestamp.  `slack ≥ 0` accounts for real
time passing between the two clock reads beyond the requested sleep
(oversleep, scheduling).  Returns the granted timestamp and the
updated state. -/
def rlWait (rl : RateLimiter) (t1 slack : ℚ) : ℚ × RateLimiter :=
  let elapsed := t1 - rl.timestamp
  let interval := 1 / rl.rate
  let t2 := (if elapsed < interval then t1 + (interval - elapsed) else t1) + slack
  (t2, ⟨rl.rate, t2⟩)

/-- Grant timestamps of a sequence of `wait` calls in the order the
callers acquired `self.lock` (the lock serialises the calls, so a
concurrent execution is exactly some such sequence).  Each call is
given by its first clock read and its slack. -/
def rlGrants (rl : RateLimiter) : List (ℚ × ℚ) → List ℚ
  | [] => []
  | (t1, slack) :: rest =>
    let g := rlWait rl t1 slack
    g.1 :: rlGrants g.2 rest

/-! ## Helper lemmas -/

/-- A single `wait` call moves the shared timestamp forward by at
least the minimum interval. -/
theorem rlWait_spacing (rl : RateLimiter) (t1 slack : ℚ) (hr : 0 < rl.rate)
    (hs : 0 ≤ slack) : rl.timestamp + 1 / rl.rate ≤ (rlWait rl t1 slack).1 := by
  have hi : 0 < 1 / rl.rate := by positivity
  unfold rlWait
  dsimp only
  split
  · linarith
  · linarith


/-- Concrete inputs used by witnesses: an empty store, a page whose
breadcrumb list has no items, a page with two content blocks, and a
page with no content containers. -/
def store0 : Store := ⟨[], [], []⟩

/-- Claim C2: across all workers, any two consecutive permits granted
by the shared rate limiter are at least 1/rate seconds apart.  The
lock at lines 35–39 covers the whole check-sleep-update, so a
concurrent execution is exactly a sequence of serialised `wait` calls
in lock-acquisition order; for every such sequence the granted
timestamps (counting the construction timestamp) are spaced by at
least 1/rate. -/
theorem rateLimiter_spacing (rl : RateLimiter) (calls : List (ℚ × ℚ))
    (hr : 0 < rl.rate) (hs : ∀ p ∈ calls, 0 ≤ p.2) :
    List.Chain' (fun a b => a + 1 / rl.rate ≤ b) (rl.timestamp :: rlGrants rl calls) := by
  induction calls generalizing rl with
  | nil => simp [rlGrants]
  | cons p rest ih =>
    obtain ⟨t1, slack⟩ := p
    have h0 : 0 ≤ slack := hs (t1, slack) (by simp)
    rw [rlGrants, List.chain'_cons]
    constructor
    · exact rlWait_spacing rl t1 slack hr h0
    · have htl := ih (rlWait rl t1 slack).2 hr (fun q hq => hs q (by simp [hq]))
      have h2 : (rlWait rl t1 slack).2.timestamp = (rlWait rl t1 slack).1 := rfl
      have h3 : (rlWait rl t1 slack).2.rate = rl.rate := rfl
      rw [h2, h3] at htl
      exact htl

/-- Witness for C2 at a concrete rate-5 limiter constructed at time 0
with two immediate concurrent callers. -/
theorem rateLimiter_spacing_witness :
    0 < (RateLimiter.mk 5 0).rate ∧
    List.Chain' (fun a b => a + 1 / (RateLimiter.mk 5 0).rate ≤ b)
      ((RateLimiter.mk 5 0).timestamp :: rlGrants (RateLimiter.mk 5 0) [(0, 0), (0, 0)]) := by
  refine ⟨by norm_num, rateLimiter_spacing (RateLimiter.mk 5 0) [(0, 0), (0, 0)] (by norm_num) ?_⟩
  intro p hp
  rcases List.mem_cons.mp hp with h | h
  · rw [h]
  · rw [List.mem_singleton.mp h]

/-- A network-level failure only appends the error line: files and
table are untouched and the exception re-raised at line 133 escapes. -/
theorem scrapeOnce_netError (post_id : Nat) (st : Store) :
    scrapeOnce post_id .netError st =
      ({ st with log := st.log ++ [errorLine post_id] }, .error .requestException) := rfl

/-- On a 200 page with a headline, a category extraction that does not
raise, non-empty stripped content and a fresh id, one attempt writes
exactly one file, inserts exactly one row, prints the saved line, and
returns through the success exit. -/
theorem scrapeOnce_success (post_id : Nat) (doc : Document) (st : Store) (hl c : String)
    (hh : doc.headline = some hl) (hc : categoryResult doc.breadcrumb = .ok c)
    (hne : ¬ pyStrip (String.intercalate "\n" doc.contentTexts) = "")
    (hfresh : st.table.any (fun r => r.1 = post_id) = false) :
    scrapeOnce post_id (.ok doc) st =
      (⟨st.files ++ [(txtPath post_id hl,
          fileText hl (doc.timeText.getD "No Date") c (doc.sourceText.getD "No Source")
            (String.intercalate "\n" doc.contentTexts))],
        st.table ++ [(post_id, hl, doc.timeText.getD "No Date", c,
          doc.sourceText.getD "No Source", String.intercalate "\n" doc.contentTexts)],
        st.log ++ [savedLine post_id]⟩, .ok .saved) := by
  obtain ⟨h, t, b, s, ct⟩ := doc
  simp only at hh hc hne
  subst hh
  simp only [scrapeOnce, hc, if_neg hne, sqliteInsert, hfresh, Bool.false_eq_true,
    if_false, cond_false]

/-- On a 200 page with a headline whose concatenated content strips to
the empty string, the attempt changes nothing and falls through the
persistence block. -/
theorem scrapeOnce_noContent (post_id : Nat) (doc : Document) (st : Store) (hl c : String)
    (hh : doc.headline = some hl) (hc : categoryResult doc.breadcrumb = .ok c)
    (hemp : pyStrip (String.intercalate "\n" doc.contentTexts) = "") :
    scrapeOnce post_id (.ok doc) st = (st, .ok .noContent) := by
  obtain ⟨h, t, b, s, ct⟩ := doc
  simp only at hh hc hemp
  subst hh
  simp only [scrapeOnce, hc, if_pos hemp]

/-- Unfolding of one failed attempt of the retry loop below the stop
threshold. -/
theorem retryGo_step_err (f : Nat → Store → Store × Except PyErr ScrapeOutcome)
    (fuel n : Nat) (st st1 : Store) (e : PyErr) (hf : f n st = (st1, .error e))
    (hn : ¬ 3 ≤ n) :
    retryGo f (fuel + 1) n st =
      ⟨(retryGo f fuel (n + 1) st1).store, (retryGo f fuel (n + 1) st1).result,
       (retryGo f fuel (n + 1) st1).attempts,
       scrapeBackoff n :: (retryGo f fuel (n + 1) st1).waits⟩ := by
  simp only [retryGo, hf, stopAfter3, decide_eq_true_eq, if_neg hn]

/-- Unfolding of one failed attempt of the retry loop at the stop
threshold: the exception is wrapped in `RetryError` and re-raised. -/
theorem retryGo_step_stop (f : Nat → Store → Store × Except PyErr ScrapeOutcome)
    (fuel n : Nat) (st st1 : Store) (e : PyErr) (hf : f n st = (st1, .error e))
    (hn : 3 ≤ n) :
    retryGo f (fuel + 1) n st = ⟨st1, .error (.retryError e), n, []⟩ := by
  simp only [retryGo, hf, stopAfter3, decide_eq_true_eq, if_pos hn]

/-- Unfolding of one successful attempt of the retry loop. -/
theorem retryGo_step_ok (f : Nat → Store → Store × Except PyErr ScrapeOutcome)
    (fuel n : Nat) (st st1 : Store) (o : ScrapeOutcome) (hf : f n st = (st1, .ok o)) :
    retryGo f (fuel + 1) n st = ⟨st1, .ok o, n, []⟩ := by
  simp only [retryGo, hf]

/-- The retry loop never issues an attempt numbered beyond its entry
number plus its fuel. -/
theorem retryGo_attempts_le (f : Nat → Store → Store × Except PyErr ScrapeOutcome) :
    ∀ fuel n st, (retryGo f fuel n st).attempts ≤ n - 1 + fuel := by
  intro fuel
  induction fuel with
  | zero =>
    intro n st
    simp [retryGo]
  | succ k ih =>
    intro n st
    rw [retryGo]
    rcases hf : f n st with ⟨st1, r⟩
    rcases r with e | o
    · dsimp only
      by_cases hn : stopAfter3 n = true
      · rw [if_pos hn]
        dsimp only
        omega
      · rw [if_neg hn]
        dsimp only
        have := ih (n + 1) st1
        omega
    · dsimp only
      omega

/-- With fuel left, the retry loop issues at least the attempt it was
entered on. -/
theorem retryGo_attempts_ge (f : Nat → Store → Store × Except PyErr ScrapeOutcome) :
    ∀ fuel n st, 1 ≤ fuel → n ≤ (retryGo f fuel n st).attempts := by
  intro fuel
  induction fuel with
  | zero =>
    intro n st h
    omega
  | succ k ih =>
    intro n st _
    rw [retryGo]
    rcases hf : f n st with ⟨st1, r⟩
    rcases r with e | o
    · dsimp only
      by_cases hn : stopAfter3 n = true
      · rw [if_pos hn]
      · rw [if_neg hn]
        dsimp only
        rcases Nat.eq_zero_or_pos k with hk | hk
        · subst hk
          simp [retryGo]
        · have := ih (n + 1) st1 hk
          omega
    · dsimp only
      omega

/-- Claim C3: retries are capped at 3 total attempts; an identifier
with transient failures on attempts 1 and 2 and a success on attempt 3
ends saved (Done) after exactly 3 attempts with the two backoff sleeps
taken; one with transient failures on 3 consecutive attempts ends with
the wrapped exception (Failed) after exactly 3 attempts and no 4th
attempt is ever issued; each backoff is exponential in the attempt
number, clamped between the floor 4 and the ceiling 10, and weakly
increasing. -/
theorem claim_c3 (post_id : Nat) (resp respT rx : Nat → HttpResponse) (st : Store)
    (doc : Document) (hl c : String) (n : Nat)
    (h1 : resp 1 = .netError) (h2 : resp 2 = .netError) (h3 : resp 3 = .ok doc)
    (hh : doc.headline = some hl) (hc : categoryResult doc.breadcrumb = .ok c)
    (hne : ¬ pyStrip (String.intercalate "\n" doc.contentTexts) = "")
    (hfresh : st.table.any (fun r => r.1 = post_id) = false)
    (hT : ∀ m, respT m = .netError) (hn : 1 ≤ n) :
    ((scrapeArticle post_id resp st).result = .ok .saved
      ∧ (scrapeArticle post_id resp st).attempts = 3
      ∧ (scrapeArticle post_id resp st).waits = [scrapeBackoff 1, scrapeBackoff 2])
    ∧ ((scrapeArticle post_id respT st).result = .error (.retryError .requestException)
      ∧ (scrapeArticle post_id respT st).attempts = 3
      ∧ (scrapeArticle post_id respT st).waits = [scrapeBackoff 1, scrapeBackoff 2])
    ∧ (scrapeArticle post_id rx st).attempts ≤ 3
    ∧ (4 ≤ scrapeBackoff n ∧ scrapeBackoff n ≤ 10
      ∧ scrapeBackoff n ≤ scrapeBackoff (n + 1)) := by
  have hb : ∀ m : Nat, scrapeBackoff m = max 4 (min ((2 : ℚ) ^ (m - 1)) 10) := by
    intro m
    have h04 : max (0 : ℚ) 4 = 4 := by norm_num
    simp [scrapeBackoff, waitExp, h04]
  refine ⟨?_, ?_, ?_, ?_⟩
  · have hf1 : (fun m s => scrapeOnce post_id (resp m) s) 1 st
        = ({ st with log := st.log ++ [errorLine post_id] }, .error .requestException) := by
      dsimp only
      rw [h1, scrapeOnce_netError]
    have hf2 : (fun m s => scrapeOnce post_id (resp m) s) 2
          { st with log := st.log ++ [errorLine post_id] }
        = ({ st with log := (st.log ++ [errorLine post_id]) ++ [errorLine post_id] },
           .error .requestException) := by
      dsimp only
      rw [h2, scrapeOnce_netError]
    have hf3 : (fun m s => scrapeOnce post_id (resp m) s) 3
          { st with log := (st.log ++ [errorLine post_id]) ++ [errorLine post_id] }
        = (⟨st.files ++ [(txtPath post_id hl,
              fileText hl (doc.timeText.getD "No Date") c (doc.sourceText.getD "No Source")
                (String.intercalate "\n" doc.contentTexts))],
            st.table ++ [(post_id, hl, doc.timeText.getD "No Date", c,
              doc.sourceText.getD "No Source", String.intercalate "\n" doc.contentTexts)],
            ((st.log ++ [errorLine post_id]) ++ [errorLine post_id]) ++ [savedLine post_id]⟩,
           .ok .saved) := by
      dsimp only
      rw [h3]
      exact scrapeOnce_success post_id doc _ hl c hh hc hne hfresh
    rw [scrapeArticle, retryGo_step_err _ 2 1 st _ _ hf1 (by omega),
      retryGo_step_err _ 1 2 _ _ _ hf2 (by omega),
      retryGo_step_ok _ 0 3 _ _ _ hf3]
    exact ⟨rfl, rfl, rfl⟩
  · have hf1 : (fun m s => scrapeOnce post_id (respT m) s) 1 st
        = ({ st with log := st.log ++ [errorLine post_id] }, .error .requestException) := by
      dsimp only
      rw [hT 1, scrapeOnce_netError]
    have hf2 : (fun m s => scrapeOnce post_id (respT m) s) 2
          { st with log := st.log ++ [errorLine post_id] }
        = ({ st with log := (st.log ++ [errorLine post_id]) ++ [errorLine post_id] },
           .error .requestException) := by
      dsimp only
      rw [hT 2, scrapeOnce_netError]
    have hf3 : (fun m s => scrapeOnce post_id (respT m) s) 3
          { st with log := (st.log ++ [errorLine post_id]) ++ [errorLine post_id] }
        = ({ st with log := ((st.log ++ [errorLine post_id]) ++ [errorLine post_id])
              ++ [errorLine post_id] }, .error .requestException) := by
      dsimp only
      rw [hT 3, scrapeOnce_netError]
    rw [scrapeArticle, retryGo_step_err _ 2 1 st _ _ hf1 (by omega),
      retryGo_step_err _ 1 2 _ _ _ hf2 (by omega),
      retryGo_step_stop _ 0 3 _ _ _ hf3 (by omega)]
    exact ⟨rfl, rfl, rfl⟩
  · have := retryGo_attempts_le (fun m s => scrapeOnce post_id (rx m) s) 3 1 st
    simpa [scrapeArticle] using this
  · refine ⟨?_, ?_, ?_⟩
    · rw [hb]
      exact le_max_left _ _
    · rw [hb]
      apply max_le (by norm_num)
      exact min_le_right _ _
    · rw [hb, hb]
      apply max_le_max le_rfl
      apply min_le_min _ le_rfl
      apply pow_le_pow_right₀ (by norm_num)
      omega

/-- A page with headline "X", a breadcrumb ending in "Politics" and
two content blocks "A" and "B" (the shape of Example B in the spec). -/
def docB : Document :=
  ⟨some "X", some "2024-01-01", some [some "News", some "Politics"], some "S", ["A", "B"]⟩

/-- Responses that fail transiently on attempts 1 and 2 and return the
good page on attempt 3. -/
def respTT3 : Nat → HttpResponse := fun n => if n ≤ 2 then .netError else .ok docB

/-- Responses that fail transiently on every attempt. -/
def respAllT : Nat → HttpResponse := fun _ => .netError

/-- Witness for C3 at post id 3, the transient-transient-success
responses, the all-transient responses, and the empty store. -/
theorem claim_c3_witness :
    ((scrapeArticle 3 respTT3 store0).result = .ok .saved
      ∧ (scrapeArticle 3 respTT3 store0).attempts = 3
      ∧ (scrapeArticle 3 respTT3 store0).waits = [scrapeBackoff 1, scrapeBackoff 2])
    ∧ ((scrapeArticle 3 respAllT store0).result = .error (.retryError .requestException)
      ∧ (scrapeArticle 3 respAllT store0).attempts = 3
      ∧ (scrapeArticle 3 respAllT store0).waits = [scrapeBackoff 1, scrapeBackoff 2])
    ∧ (scrapeArticle 3 respAllT store0).attempts ≤ 3
    ∧ (4 ≤ scrapeBackoff 1 ∧ scrapeBackoff 1 ≤ 10
      ∧ scrapeBackoff 1 ≤ scrapeBackoff 2) :=
  claim_c3 3 respTT3 respAllT respAllT store0 docB "X" "Politics" 1
    rfl rfl rfl rfl rfl (by decide) rfl (fun _ => rfl) (by decide)

/-- A page with a headline but a breadcrumb list with zero items. -/
def docEmptyBc : Document := ⟨some "X", none, some [], none, ["body"]⟩

/-- Counterexample to claim C4 as stated.  The claim says a
`FatalError` (an unexpected non-network failure) causes at most one
attempt and is never retried; but the decorator at line 59 has no
retry predicate, so the `IndexError` raised by the empty-breadcrumb
page — a non-network, non-transient failure — is retried like a
transient one: the very same page served on every attempt yields 3
attempts, two backoff sleeps, and a final wrapped `IndexError`. -/
theorem claim_c4_counterexample :
    (scrapeArticle 7 (fun _ => .ok docEmptyBc) store0).attempts = 3
    ∧ (scrapeArticle 7 (fun _ => .ok docEmptyBc) store0).result
        = .error (.retryError .indexError)
    ∧ (scrapeArticle 7 (fun _ => .ok docEmptyBc) store0).waits
        = [scrapeBackoff 1, scrapeBackoff 2] := by
  refine ⟨by decide, by decide, ?_⟩
  have h : scrapeOnce 7 (.ok docEmptyBc) store0 = (store0, .error .indexError) := by decide
  rw [scrapeArticle, retryGo_step_err _ 2 1 store0 _ _ h (by omega),
    retryGo_step_err _ 1 2 store0 _ _ h (by omega),
    retryGo_step_stop _ 0 3 store0 _ _ h (by omega)]

/-- Claim C4 amended: an HTTP not-found response causes exactly one
attempt and is never retried (it is a plain `return`, not an
exception); but retry is not restricted to transient errors — any
exception raised by an attempt, including non-network failures such
as `IndexError`, triggers a retry, so a first-attempt exception of
any kind always leads to a second attempt. -/
theorem claim_c4_amended (post_id : Nat) (respN respE : Nat → HttpResponse) (st : Store)
    (e : PyErr) (hn : respN 1 = .notFound)
    (he : (scrapeOnce post_id (respE 1) st).2 = .error e) :
    scrapeArticle post_id respN st
      = ⟨{ st with log := st.log ++ [notFoundLine post_id] }, .ok .notFoundReturn, 1, []⟩
    ∧ 2 ≤ (scrapeArticle post_id respE st).attempts := by
  constructor
  · have hf : (fun m s => scrapeOnce post_id (respN m) s) 1 st
        = ({ st with log := st.log ++ [notFoundLine post_id] }, .ok .notFoundReturn) := by
      dsimp only
      rw [hn]
      rfl
    rw [scrapeArticle, retryGo_step_ok _ 2 1 st _ _ hf]
  · rcases hs : scrapeOnce post_id (respE 1) st with ⟨st1, r⟩
    rw [hs] at he
    dsimp only at he
    subst he
    have hf : (fun m s => scrapeOnce post_id (respE m) s) 1 st = (st1, .error e) := by
      dsimp only
      rw [hs]
    rw [scrapeArticle, retryGo_step_err _ 2 1 st _ _ hf (by omega)]
    have := retryGo_attempts_ge (fun m s => scrapeOnce post_id (respE m) s) 2 2 st1 (by omega)
    exact this

/-- Witness for the amended C4 at post id 7, a 404 response for the
first run and the empty-breadcrumb page for the second. -/
theorem claim_c4_amended_witness :
    scrapeArticle 7 (fun _ => .notFound) store0
      = ⟨{ store0 with log := store0.log ++ [notFoundLine 7] }, .ok .notFoundReturn, 1, []⟩
    ∧ 2 ≤ (scrapeArticle 7 (fun _ => .ok docEmptyBc) store0).attempts :=
  claim_c4_amended 7 (fun _ => .notFound) (fun _ => .ok docEmptyBc) store0
    .indexError rfl rfl

/-- Claim C9: on a page whose breadcrumb element is present but has
zero list items, extraction does not fall back to the "No Category"
sentinel: indexing the last list item raises `IndexError`, the attempt
leaves the store untouched and ends in an exception, and since every
attempt sees the same page the whole decorated call aborts with the
wrapped `IndexError`. -/
theorem claim_c9 (post_id : Nat) (doc : Document) (st : Store) (hl : String)
    (resp : Nat → HttpResponse) (hh : doc.headline = some hl)
    (hb : doc.breadcrumb = some []) (hr : ∀ m, resp m = .ok doc) :
    scrapeOnce post_id (.ok doc) st = (st, .error .indexError)
    ∧ (scrapeArticle post_id resp st).result = .error (.retryError .indexError) := by
  have honce : scrapeOnce post_id (.ok doc) st = (st, .error .indexError) := by
    obtain ⟨h, t, b, s, ct⟩ := doc
    simp only at hh hb
    subst hh
    subst hb
    simp only [scrapeOnce, categoryResult, List.getLast?]
  refine ⟨honce, ?_⟩
  have hf : ∀ m, (fun m s => scrapeOnce post_id (resp m) s) m st = (st, .error .indexError) := by
    intro m
    dsimp only
    rw [hr m, honce]
  rw [scrapeArticle, retryGo_step_err _ 2 1 st _ _ (hf 1) (by omega),
    retryGo_step_err _ 1 2 st _ _ (hf 2) (by omega),
    retryGo_step_stop _ 0 3 st _ _ (hf 3) (by omega)]

/-- Witness for C9 at post id 7 and the empty-breadcrumb page. -/
theorem claim_c9_witness :
    scrapeOnce 7 (.ok docEmptyBc) store0 = (store0, .error .indexError)
    ∧ (scrapeArticle 7 (fun _ => .ok docEmptyBc) store0).result
        = .error (.retryError .indexError) :=
  claim_c9 7 docEmptyBc store0 "X" (fun _ => .ok docEmptyBc) rfl rfl (fun _ => rfl)

/-- Claim C10: when the post id already exists as a primary key in the
articles table, the plain `INSERT` raises `sqlite3.IntegrityError`
instead of overwriting: the attempt ends in the integrity exception,
the table is exactly as before (the stored row untouched), and the
file-sink write for the same identifier has already happened — the
new file and the saved-line print precede the failing insert. -/
theorem claim_c10 (post_id : Nat) (doc : Document) (st : Store) (hl c : String)
    (hh : doc.headline = some hl) (hc : categoryResult doc.breadcrumb = .ok c)
    (hne : ¬ pyStrip (String.intercalate "\n" doc.contentTexts) = "")
    (hdup : st.table.any (fun r => r.1 = post_id) = true) :
    scrapeOnce post_id (.ok doc) st =
      (⟨st.files ++ [(txtPath post_id hl,
          fileText hl (doc.timeText.getD "No Date") c (doc.sourceText.getD "No Source")
            (String.intercalate "\n" doc.contentTexts))],
        st.table,
        st.log ++ [savedLine post_id]⟩, .error .integrityError) := by
  obtain ⟨h, t, b, s, ct⟩ := doc
  simp only at hh hc hne
  subst hh
  simp only [scrapeOnce, hc, if_neg hne, sqliteInsert, hdup, if_true]

/-- A store whose articles table already holds a row with primary key
7. -/
def storeDup : Store := ⟨[], [(7, "old", "p", "c", "s", "x")], []⟩

/-- Witness for C10 at post id 7 against the pre-populated store. -/
theorem claim_c10_witness :
    scrapeOnce 7 (.ok docB) storeDup =
      (⟨storeDup.files ++ [(txtPath 7 "X",
          fileText "X" (docB.timeText.getD "No Date") "Politics" (docB.sourceText.getD "No Source")
            (String.intercalate "\n" docB.contentTexts))],
        storeDup.table,
        storeDup.log ++ [savedLine 7]⟩, .error .integrityError) :=
  claim_c10 7 docB storeDup "X" "Politics" rfl rfl (by decide) rfl

/-- Appending one element never leaves a list unchanged. -/
theorem append_singleton_ne {α : Type} (l : List α) (a : α) : l ++ [a] ≠ l := by
  intro h
  have := congrArg List.length h
  simp at this

/-- Claim C6: for a successfully fetched page with a headline (and a
category extraction that does not raise) whose id is not already in
the table, a file is written and a row inserted if and only if the
concatenated content is non-empty after stripping whitespace; when it
strips to empty the item is a skip — the store is completely
untouched and the no-content exit is taken. -/
theorem claim_c6 (post_id : Nat) (doc : Document) (st : Store) (hl c : String)
    (hh : doc.headline = some hl) (hc : categoryResult doc.breadcrumb = .ok c)
    (hfresh : st.table.any (fun r => r.1 = post_id) = false) :
    (((scrapeOnce post_id (.ok doc) st).1.files ≠ st.files
      ∧ (scrapeOnce post_id (.ok doc) st).1.table ≠ st.table)
      ↔ ¬ pyStrip (String.intercalate "\n" doc.contentTexts) = "")
    ∧ (pyStrip (String.intercalate "\n" doc.contentTexts) = "" →
        scrapeOnce post_id (.ok doc) st = (st, .ok .noContent)) := by
  by_cases hemp : pyStrip (String.intercalate "\n" doc.contentTexts) = ""
  · have h0 := scrapeOnce_noContent post_id doc st hl c hh hc hemp
    rw [h0]
    exact ⟨by simp [hemp], fun _ => rfl⟩
  · have h1 := scrapeOnce_success post_id doc st hl c hh hc hemp hfresh
    rw [h1]
    refine ⟨?_, fun hem => absurd hem hemp⟩
    exact iff_of_true ⟨append_singleton_ne _ _, append_singleton_ne _ _⟩ hemp

/-- Witness for C6 at post id 11, the good page and the empty store. -/
theorem claim_c6_witness :
    (((scrapeOnce 11 (.ok docB) store0).1.files ≠ store0.files
      ∧ (scrapeOnce 11 (.ok docB) store0).1.table ≠ store0.table)
      ↔ ¬ pyStrip (String.intercalate "\n" docB.contentTexts) = "")
    ∧ (pyStrip (String.intercalate "\n" docB.contentTexts) = "" →
        scrapeOnce 11 (.ok docB) store0 = (store0, .ok .noContent)) :=
  claim_c6 11 docB store0 "X" "Politics" rfl rfl rfl

/-- The five sequential writes produce exactly the four header lines,
one blank line, and the body. -/
theorem fileText_flat (a b c d e : String) :
    fileText a b c d e
      = "Title: " ++ a ++ "\n" ++ "Published: " ++ b ++ "\n" ++ "Category: " ++ c
        ++ "\n" ++ "Source: " ++ d ++ "\n\n" ++ e := by
  simp only [fileText, fileWrites, List.foldl, String.empty_append, String.append_assoc]

/-- Claim C7: a persisted record for identifier id lands in the file
ARTICLES_PATH/lo-hi/id_prefix.txt where lo = floor(id/10000)·10000 and
hi = lo + 9999 (Nat division is the floor), the prefix is the headline
truncated to at most 50 characters with path separators replaced, and
the file holds the four header lines, a blank line, and the content
containers joined in document order by newlines. -/
theorem claim_c7 (post_id : Nat) (doc : Document) (st : Store) (hl c : String)
    (hh : doc.headline = some hl) (hc : categoryResult doc.breadcrumb = .ok c)
    (hne : ¬ pyStrip (String.intercalate "\n" doc.contentTexts) = "")
    (hfresh : st.table.any (fun r => r.1 = post_id) = false) :
    (scrapeOnce post_id (.ok doc) st).1.files
      = st.files ++ [(ARTICLES_PATH ++ "/"
            ++ (toString (post_id / 10000 * 10000) ++ "-"
                ++ toString (post_id / 10000 * 10000 + 9999)) ++ "/"
            ++ (toString post_id ++ "_" ++ headline50 hl ++ ".txt"),
          "Title: " ++ hl ++ "\n" ++ "Published: " ++ doc.timeText.getD "No Date" ++ "\n"
            ++ "Category: " ++ c ++ "\n" ++ "Source: " ++ doc.sourceText.getD "No Source"
            ++ "\n\n" ++ String.intercalate "\n" doc.contentTexts)]
    ∧ (headline50 hl).length ≤ 50
    ∧ (∀ ch ∈ (headline50 hl).data, ch ≠ '/') := by
  have harith : (post_id / 10000 + 1) * 10000 - 1 = post_id / 10000 * 10000 + 9999 := by
    omega
  have hbn : bucketName post_id
      = toString (post_id / 10000 * 10000) ++ "-" ++ toString (post_id / 10000 * 10000 + 9999) := by
    rw [bucketName, harith]
  refine ⟨?_, ?_, ?_⟩
  · rw [scrapeOnce_success post_id doc st hl c hh hc hne hfresh]
    simp only [txtPath, txtName, hbn, fileText_flat, String.append_assoc]
  · have : (headline50 hl).length = ((hl.data.take 50).map
        (fun c => if c = '/' then '-' else c)).length := rfl
    rw [this, List.length_map, List.length_take]
    omega
  · intro ch hch
    simp only [headline50, List.mem_map] at hch
    obtain ⟨a, _, ha⟩ := hch
    rw [← ha]
    by_cases h : a = '/'
    · simp [h]
    · simp [h]

/-- Witness for C7 at identifier 273294 (Example B of the spec: bucket
270000-279999) with the good page and the empty store. -/
theorem claim_c7_witness :
    (scrapeOnce 273294 (.ok docB) store0).1.files
      = store0.files ++ [(ARTICLES_PATH ++ "/"
            ++ (toString (273294 / 10000 * 10000) ++ "-"
                ++ toString (273294 / 10000 * 10000 + 9999)) ++ "/"
            ++ (toString 273294 ++ "_" ++ headline50 "X" ++ ".txt"),
          "Title: " ++ "X" ++ "\n" ++ "Published: " ++ docB.timeText.getD "No Date" ++ "\n"
            ++ "Category: " ++ "Politics" ++ "\n" ++ "Source: " ++ docB.sourceText.getD "No Source"
            ++ "\n\n" ++ String.intercalate "\n" docB.contentTexts)]
    ∧ (headline50 "X").length ≤ 50
    ∧ (∀ ch ∈ (headline50 "X").data, ch ≠ '/') :=
  claim_c7 273294 docB store0 "X" "Politics" rfl rfl (by decide) rfl

/-- Pool responses that fail at the network level for every item and
attempt. -/
def allFailPool : Nat → Nat → HttpResponse := fun _ _ => .netError

/-- Pool responses that serve the good page for every item and
attempt. -/
def okPool : Nat → Nat → HttpResponse := fun _ _ => .ok docB

/-- A complete run over the seeded range 1..6 with all requests
failing: each of the 5 workers takes one item, exhausts its retries,
and is killed by the escaping `RetryError`. -/
def crashRun : PoolState := runPool allFailPool (initPool 1 6) [0, 1, 2, 3, 4]

/-- A worker iteration changes nothing once no worker is running. -/
theorem poolStep_stuck (resp : Nat → Nat → HttpResponse) (ps : PoolState)
    (hcr : ∀ w ∈ ps.workers, w ≠ .running) (i : Nat) : poolStep resp ps i = ps := by
  unfold poolStep
  cases hg : ps.workers.get? i with
  | none => rfl
  | some w =>
    have hw := hcr w (List.get?_mem hg)
    cases w
    · exact absurd rfl hw
    · rfl
    · rfl

/-- A whole schedule changes nothing once no worker is running. -/
theorem runPool_stuck (resp : Nat → Nat → HttpResponse) (ps : PoolState)
    (hcr : ∀ w ∈ ps.workers, w ≠ .running) (sched : List Nat) :
    runPool resp ps sched = ps := by
  induction sched with
  | nil => rfl
  | cons j s ih =>
    have h1 : runPool resp ps (j :: s) = runPool resp (poolStep resp ps j) s := rfl
    rw [h1, poolStep_stuck resp ps hcr j, ih]

/-- One worker iteration preserves the processed-then-queued sequence
of identifiers. -/
theorem poolStep_ids (resp : Nat → Nat → HttpResponse) (ps : PoolState) (i : Nat) :
    (poolStep resp ps i).results.map Prod.fst ++ (poolStep resp ps i).queue
      = ps.results.map Prod.fst ++ ps.queue := by
  unfold poolStep
  cases hg : ps.workers.get? i with
  | none => rfl
  | some w =>
    cases w with
    | running =>
      cases hq : ps.queue with
      | nil => rfl
      | cons post_id rest =>
        dsimp only
        cases hr : (scrapeArticle post_id (resp post_id) ps.store).result with
        | error e =>
          dsimp only
          simp [hq]
        | ok o =>
          dsimp only
          simp [hq]
    | exited => rfl
    | crashed => rfl

/-- A whole run preserves the processed-then-queued sequence of
identifiers. -/
theorem runPool_ids (resp : Nat → Nat → HttpResponse) (sched : List Nat) (ps : PoolState) :
    (runPool resp ps sched).results.map Prod.fst ++ (runPool resp ps sched).queue
      = ps.results.map Prod.fst ++ ps.queue := by
  induction sched generalizing ps with
  | nil => rfl
  | cons j s ih =>
    have h1 : runPool resp ps (j :: s) = runPool resp (poolStep resp ps j) s := rfl
    rw [h1, ih (poolStep resp ps j), poolStep_ids]

/-- Counterexample to claim C1 as stated.  In the all-fail run over
the seeded range 1..6, items 1..5 each exhaust their retries; the
escaping exception is not caught anywhere in `worker`, so instead of
the worker thread "keeping running", every one of the 5 threads is
killed by its first failing item, and identifier 6 — still in the
queue — is never processed by anyone even though the run is over. -/
theorem claim_c1_counterexample :
    crashRun.workers = List.replicate 5 .crashed
    ∧ crashRun.queue = [6]
    ∧ crashRun.results
        = [(1, .failed), (2, .failed), (3, .failed), (4, .failed), (5, .failed)] := by
  refine ⟨by decide, by decide, by decide⟩

/-- Claim C1 amended: an item failure is not contained in the worker
loop.  When a running worker dequeues an item whose decorated call
ends in an exception, that worker terminates (crashed), the queue
advances, and the other workers are untouched; the pool as a whole
keeps draining the queue only while some worker is still running —
once every worker has terminated, no schedule processes anything
further, so queued identifiers stay unprocessed. -/
theorem claim_c1_amended (resp resp2 : Nat → Nat → HttpResponse) (ps ps2 : PoolState)
    (i post_id : Nat) (rest sched : List Nat) (e : PyErr)
    (hq : ps.queue = post_id :: rest)
    (hw : ps.workers.get? i = some .running)
    (hf : (scrapeArticle post_id (resp post_id) ps.store).result = .error e)
    (hcr : ∀ w ∈ ps2.workers, w ≠ .running) :
    poolStep resp ps i
      = ⟨rest, ps.workers.set i .crashed, ps.results ++ [(post_id, .failed)],
         (scrapeArticle post_id (resp post_id) ps.store).store⟩
    ∧ runPool resp2 ps2 sched = ps2 := by
  constructor
  · unfold poolStep
    rw [hw, hq]
    dsimp only
    rw [hf]
  · exact runPool_stuck resp2 ps2 hcr sched

/-- Witness for the amended C1: worker 0 takes item 1 of the seeded
range 1..6 under all-failing responses and crashes; the fully-crashed
final state of the all-fail run is stuck under any further schedule. -/
theorem claim_c1_amended_witness :
    poolStep allFailPool (initPool 1 6) 0
      = ⟨[2, 3, 4, 5, 6], (initPool 1 6).workers.set 0 .crashed,
         (initPool 1 6).results ++ [(1, .failed)],
         (scrapeArticle 1 (allFailPool 1) (initPool 1 6).store).store⟩
    ∧ runPool allFailPool crashRun [2, 0] = crashRun :=
  claim_c1_amended allFailPool allFailPool (initPool 1 6) crashRun 0 1
    [2, 3, 4, 5, 6] [2, 0] (.retryError .requestException)
    (by decide) (by decide) (by decide) (by decide)

/-- Counterexample to claim C5 as stated.  In the completed all-fail
run over the seeded range 1..6 every worker has terminated, yet
identifier 6 was seeded and never dequeued: it has no terminal
status, i.e. it is left Pending, contradicting "every identifier in
the range has been dequeued and processed exactly once". -/
theorem claim_c5_counterexample :
    crashRun.queue = [6]
    ∧ 6 ∈ seedIds 1 6
    ∧ crashRun.results.map Prod.fst = [1, 2, 3, 4, 5]
    ∧ crashRun.workers = List.replicate 5 .crashed := by
  refine ⟨by decide, by decide, by decide, by decide⟩

/-- Claim C5 amended: uniqueness holds but completeness does not.  In
every execution the processed identifiers followed by the remaining
queue are exactly the seeded range — so no identifier is handed to
two workers, each dequeued identifier receives exactly one terminal
status, and the seeded range is duplicate-free; but identifiers still
in the queue when the run ends (possible once failures have killed
every worker) are left without a terminal status. -/
theorem claim_c5_amended (resp : Nat → Nat → HttpResponse) (start_id end_id : Nat)
    (sched : List Nat) :
    (runPool resp (initPool start_id end_id) sched).results.map Prod.fst
        ++ (runPool resp (initPool start_id end_id) sched).queue
      = seedIds start_id end_id
    ∧ (seedIds start_id end_id).Nodup := by
  constructor
  · have h := runPool_ids resp sched (initPool start_id end_id)
    simpa [initPool] using h
  · exact List.nodup_range' _ _

/-- Single-item run (seeded range 1..1) where the item succeeds. -/
def runC8ok : PoolState := runPool okPool (initPool 1 1) [0]

/-- Single-item run (seeded range 1..1) where the item fails. -/
def runC8fail : PoolState := runPool allFailPool (initPool 1 1) [0]

/-- Counterexample to claim C8 as stated.  `scrape_all_articles` has
no return statement and keeps no counters: two runs with different
outcome counts (one succeeded vs one failed) return the identical
`None`, so the orchestrator cannot be returning aggregate counts; nor
is any summary printed — the failing run's entire console output is
the three per-attempt error lines of its single item. -/
theorem claim_c8_counterexample :
    outcomeCounts runC8ok.results ≠ outcomeCounts runC8fail.results
    ∧ scrapeAllArticlesRet 1 1 okPool [0] = scrapeAllArticlesRet 1 1 allFailPool [0]
    ∧ runC8fail.store.log = [errorLine 1, errorLine 1, errorLine 1] := by
  refine ⟨by decide, rfl, by decide⟩

/-- Claim C8 amended: the orchestrator aggregates nothing and returns
`None` whatever the outcomes were; the only user-visible reporting is
the per-item lines printed while processing, and an item skipped for
empty content prints nothing at all. -/
theorem claim_c8_amended (start_id end_id : Nat) (resp : Nat → Nat → HttpResponse)
    (sched : List Nat) (post_id : Nat) (doc : Document) (st : Store) (hl c : String)
    (hh : doc.headline = some hl) (hc : categoryResult doc.breadcrumb = .ok c)
    (hemp : pyStrip (String.intercalate "\n" doc.contentTexts) = "") :
    scrapeAllArticlesRet start_id end_id resp sched = ()
    ∧ scrapeOnce post_id (.ok doc) st = (st, .ok .noContent) :=
  ⟨rfl, scrapeOnce_noContent post_id doc st hl c hh hc hemp⟩

/-- A page with a headline but no content containers at all. -/
def docNoContent : Document := ⟨some "X", none, none, none, []⟩

/-- Witness for the amended C8 on the single-item succeeding run and
the no-content page. -/
theorem claim_c8_amended_witness :
    scrapeAllArticlesRet 1 1 okPool [0] = ()
    ∧ scrapeOnce 9 (.ok docNoContent) store0 = (store0, .ok .noContent) :=
  claim_c8_amended 1 1 okPool [0] 9 docNoContent store0 "X" "No Category" rfl rfl rfl
